import Mathlib

/-
Verification of the TCP tunnel relay in
src/shadowsocks/src/relay/tcprelay/tunnel_local.rs.

The embedding is shallow: every external effect (accepting a connection,
opening the proxied upstream stream, the two directional copies, socket
tuning, querying the peer address, sleeping) is represented by an input
parameter holding the result that the effect produced, and each function
of the source is translated to a pure Lean function from those inputs to
an event trace (the logs it emits, the sleeps it performs, the sockets it
closes) together with its return value.  Rust panics (assert and expect
and unwrap) are modelled as an explicit outcome constructor, since they
abort the function and propagate to its caller.
-/

deriving instance DecidableEq for Except

namespace TunnelLocal

/-- Kinds of I/O errors, as in std::io::ErrorKind; only TimedOut is
distinguished by the source, the rest stand for every other kind. -/
inductive ErrorKind
  | TimedOut
  | ConnectionRefused
  | ConnectionReset
  | BrokenPipe
  | AddrInUse
  | PermissionDenied
  | OtherKind
  deriving DecidableEq, Repr

/-- An I/O error: its kind plus a code distinguishing errors of one kind. -/
structure IOError where
  kind : ErrorKind
  code : Nat
  deriving DecidableEq, Repr

/-- Log levels of the log crate macros used by the source. -/
inductive LogLevel
  | error
  | info
  | debug
  | trace
  deriving DecidableEq, Repr

/-- The two sockets owned by one connection task. -/
inductive StreamEnd
  | client
  | upstream
  deriving DecidableEq, Repr

/-- Observable events of one execution: log emissions, sleeps, the accept
attempt at the head of each loop iteration, the set_nodelay call, the
connect_proxied call, the creation of the two directional copy futures,
spawning a task, and a socket being dropped (closed). -/
inductive Event
  | log (lvl : LogLevel) (msg : String)
  | sleepSecs (n : Nat)
  | acceptAttempt
  | setNodelayAttempt
  | connectAttempt
  | copyStarted
  | spawned
  | close (side : StreamEnd)
  deriving DecidableEq, Repr

abbrev SocketAddr := String
abbrev Address := String
abbrev ProxyStream := Unit
abbrev CopyResult := Except IOError Nat

/-- Which of the two directional copy futures finishes first in the
future::select race: left is copy_p2s (client to upstream), right is
copy_s2p (upstream to client). -/
inductive First
  | left
  | right
  deriving DecidableEq, Repr

/-- The configuration fields of the shared context read by this module. -/
structure Config where
  mode_enable_tcp : Bool
  local_addr : Option String
  forward : Option Address
  no_delay : Bool
  deriving DecidableEq, Repr

/-- The log event emitted by the match on future::select in
establish_client_tcp_tunnel, source lines 53 to 70: clean end of stream is
logged at trace level, a TimedOut error at trace level, any other error at
debug level, for whichever direction finished first. -/
def terminationLogEvent (first : First) (rl rr : CopyResult) : Event :=
  match first with
  | .left =>
    match rl with
    | .ok _ => .log .trace "TUNNEL relay client to upstream closed"
    | .error err =>
      if err.kind = .TimedOut then
        .log .trace "TUNNEL relay client to upstream closed with timeout error"
      else
        .log .debug "TUNNEL relay client to upstream closed with error"
  | .right =>
    match rr with
    | .ok _ => .log .trace "TUNNEL relay upstream to client closed"
    | .error err =>
      if err.kind = .TimedOut then
        .log .trace "TUNNEL relay upstream to client closed with timeout error"
      else
        .log .debug "TUNNEL relay upstream to client closed with error"

/-- establish_client_tcp_tunnel, source lines 29 to 75.  connectResult is
the result of ProxyStream::connect_proxied; on its error the question-mark
operator returns it at once, dropping the client stream.  On success the
two copy futures are created, the established line is logged, the select
race resolves to the first finishing side whose result is classified and
logged, the closed line is logged, and both streams are dropped; the
function returns Ok unit on every termination cause. -/
def establish_client_tcp_tunnel (connectResult : Except IOError ProxyStream)
    (first : First) (rl rr : CopyResult) : List Event × Except IOError Unit :=
  match connectResult with
  | .error e => ([Event.connectAttempt, Event.close .client], .error e)
  | .ok _ =>
      ([Event.connectAttempt, Event.copyStarted,
        Event.log .debug "TUNNEL relay established",
        terminationLogEvent first rl rr,
        Event.log .debug "TUNNEL relay closed",
        Event.close .upstream, Event.close .client], .ok ())

/-- The tuning block of handle_tunnel_client, source lines 86 to 90:
set_nodelay is called only when the no_delay flag is set, and its failure
is only logged. -/
def tuningEvents (noDelay : Bool) (nodelayResult : Except IOError Unit) :
    List Event :=
  if noDelay then
    match nodelayResult with
    | .ok _ => [Event.setNodelayAttempt]
    | .error _ =>
        [Event.setNodelayAttempt,
         Event.log .error "failed to set TCP_NODELAY on accepted socket"]
  else []

/-- Outcome of handle_tunnel_client: either a Rust panic (the unwrap of the
forward address on None) or an io::Result return. -/
inductive HandleOutcome
  | panicked (msg : String)
  | result (r : Except IOError Unit)
  deriving DecidableEq, Repr

/-- handle_tunnel_client, source lines 77 to 98: best effort tuning, then
peer_addr with the question-mark operator (its error drops the client
stream and returns), then the unwrap of the forward address (panics on
None), then establish_client_tcp_tunnel. -/
def handle_tunnel_client (cfg : Config) (nodelayResult : Except IOError Unit)
    (peerAddrResult : Except IOError SocketAddr)
    (connectResult : Except IOError ProxyStream)
    (first : First) (rl rr : CopyResult) : List Event × HandleOutcome :=
  let tuning := tuningEvents cfg.no_delay nodelayResult
  match peerAddrResult with
  | .error e => (tuning ++ [Event.close .client], .result (.error e))
  | .ok _ =>
      match cfg.forward with
      | none => (tuning, .panicked "called unwrap on a None value")
      | some _ =>
          let r := establish_client_tcp_tunnel connectResult first rl rr
          (tuning ++ r.1, .result r.2)

/-- The external results one accepted connection consumes. -/
structure PerConnEnv where
  nodelayResult : Except IOError Unit
  peerAddrResult : Except IOError SocketAddr
  connectResult : Except IOError ProxyStream
  first : First
  rl : CopyResult
  rr : CopyResult
  deriving DecidableEq, Repr

/-- The body of the tokio::spawn closure, source lines 138 to 142: the task
runs handle_tunnel_client, logs its error at debug level and returns
nothing, so the outcome never leaves the task. -/
def tunnelClientTask (cfg : Config) (env : PerConnEnv) : List Event :=
  let h := handle_tunnel_client cfg env.nodelayResult env.peerAddrResult
    env.connectResult env.first env.rl env.rr
  match h.2 with
  | .result (.error _) =>
      h.1 ++ [Event.log .debug "TCP tunnel client exited with error"]
  | .result (.ok _) => h.1
  | .panicked _ => h.1

/-- One accept outcome feeding one iteration of the loop in run. -/
inductive IterInput
  | acceptFailed (e : IOError)
  | accepted (peerAddr : SocketAddr) (conn : PerConnEnv)
  deriving DecidableEq, Repr

/-- What an iteration of the loop does next: continue looping, or return a
value from run.  The source loop body has no break and no return, so every
iteration continues. -/
inductive IterControl
  | continueLoop
  | returnResult (r : Except IOError Unit)
  deriving DecidableEq, Repr

/-- One iteration of the accept loop: the events of the loop itself, the
trace of the task it spawned (empty when accept failed), and the control
outcome. -/
structure IterResult where
  loopEvents : List Event
  taskTrace : List Event
  control : IterControl
  deriving DecidableEq, Repr

/-- One iteration of the loop in run, source lines 124 to 143: an accept
failure is logged at error level, the loop sleeps one second and
continues; a successful accept picks a server, logs at trace level, spawns
the connection task and continues. -/
def runIteration (cfg : Config) (input : IterInput) : IterResult :=
  match input with
  | .acceptFailed _ =>
      { loopEvents := [Event.acceptAttempt,
          Event.log .error "accept failed with error", Event.sleepSecs 1],
        taskTrace := [],
        control := .continueLoop }
  | .accepted _ conn =>
      { loopEvents := [Event.acceptAttempt,
          Event.log .trace "got connection",
          Event.log .trace "picked proxy server", Event.spawned],
        taskTrace := tunnelClientTask cfg conn,
        control := .continueLoop }

/-- The accept loop run over a finite prefix of accept outcomes: the
concatenation of the loop events of each iteration, stopping early only if
an iteration returned. -/
def acceptLoop (cfg : Config) : List IterInput → List Event
  | [] => []
  | input :: rest =>
      let r := runIteration cfg input
      r.loopEvents ++
        (match r.control with
         | .continueLoop => acceptLoop cfg rest
         | .returnResult _ => [])

/-- Whether the loop returned a value from run while consuming the given
accept outcomes: none means it was still looping after all of them. -/
def acceptLoopOutcome (cfg : Config) : List IterInput → Option (Except IOError Unit)
  | [] => none
  | input :: rest =>
      match (runIteration cfg input).control with
      | .continueLoop => acceptLoopOutcome cfg rest
      | .returnResult r => some r

/-- External results consumed by the startup phase of run. -/
structure StartupEnv where
  bindAddrResult : Except IOError SocketAddr
  bindResult : Except IOError Unit
  localAddrResult : Except IOError SocketAddr
  deriving DecidableEq, Repr

/-- How run left its startup phase: a panic (assert or expect), an
io::Result error return, or entry into the accept loop. -/
inductive RunOutcome
  | panicked (msg : String)
  | startupFailed (e : IOError)
  | enteredLoop
  deriving DecidableEq, Repr

/-- The startup phase of run, source lines 100 to 122: the assert on the
TCP mode flag, the expect on local_addr, bind_addr with the question-mark
operator, TcpListener::bind with an error log and the question-mark
operator, the expect on listener.local_addr, the expect on the forward
address, and the info log; in that order. -/
def runStartup (cfg : Config) (env : StartupEnv) : List Event × RunOutcome :=
  if cfg.mode_enable_tcp then
    match cfg.local_addr with
    | none => ([], .panicked "local config")
    | some _ =>
        match env.bindAddrResult with
        | .error e => ([], .startupFailed e)
        | .ok _ =>
            match env.bindResult with
            | .error e =>
                ([Event.log .error "failed to listen"], .startupFailed e)
            | .ok _ =>
                match env.localAddrResult with
                | .error _ => ([], .panicked "determine port bound to")
                | .ok _ =>
                    match cfg.forward with
                    | none => ([], .panicked "forward address in config")
                    | some _ =>
                        ([Event.log .info "shadowsocks TCP tunnel listening"],
                         .enteredLoop)
  else ([], .panicked "TCP relay must be enabled for TUNNEL")

/-- run, source lines 100 to 144: the startup phase, then, only when it
entered the loop, the accept loop over the given accept outcomes. -/
def run (cfg : Config) (env : StartupEnv) (inputs : List IterInput) :
    List Event × RunOutcome :=
  let s := runStartup cfg env
  match s.2 with
  | .enteredLoop => (s.1 ++ acceptLoop cfg inputs, .enteredLoop)
  | o => (s.1, o)

/-- The level of a log event, none for non-log events. -/
def eventLevel : Event → Option LogLevel
  | .log lvl _ => some lvl
  | _ => none

/-- Modelled from the spec: the termination classification the spec
prescribes for the first finishing direction of the relay: clean end of
stream at trace level, a timeout-class error at trace level, any other
I/O error at debug level. -/
def expectedTerminationLevel (r : CopyResult) : LogLevel :=
  match r with
  | .ok _ => .trace
  | .error e => if e.kind = .TimedOut then .trace else .debug

/-- The result of whichever direction finished the select race first. -/
def selectedResult (first : First) (rl rr : CopyResult) : CopyResult :=
  match first with
  | .left => rl
  | .right => rr

/-- C1: once the upstream tunnel is established, establish_client_tcp_tunnel
returns Ok unit no matter which direction finishes the race first and no
matter whether it finished with clean end of stream, a TimedOut error, or
any other error. -/
theorem relay_returns_ok_for_all_terminations (ps : ProxyStream) (first : First)
    (rl rr : CopyResult) :
    (establish_client_tcp_tunnel (Except.ok ps) first rl rr).2 = Except.ok () := rfl

/-- The termination log event is always a log emission, never any other
kind of event. -/
lemma terminationLogEvent_isLog (first : First) (rl rr : CopyResult) :
    ∃ lvl msg, terminationLogEvent first rl rr = Event.log lvl msg := by
  unfold terminationLogEvent
  cases first
  · cases rl with
    | ok n => exact ⟨_, _, rfl⟩
    | error err =>
      dsimp only
      split
      · exact ⟨_, _, rfl⟩
      · exact ⟨_, _, rfl⟩
  · cases rr with
    | ok n => exact ⟨_, _, rfl⟩
    | error err =>
      dsimp only
      split
      · exact ⟨_, _, rfl⟩
      · exact ⟨_, _, rfl⟩

/-- Under any of the fatal startup conditions the startup phase of run does
not reach the accept loop. -/
lemma runStartup_not_enteredLoop (cfg : Config) (env : StartupEnv)
    (h : cfg.mode_enable_tcp = false ∨ cfg.local_addr = none ∨
         (∃ e, env.bindAddrResult = Except.error e) ∨
         (∃ e, env.bindResult = Except.error e) ∨ cfg.forward = none) :
    (runStartup cfg env).2 ≠ RunOutcome.enteredLoop := by
  obtain ⟨mo, la, fw, nd⟩ := cfg
  obtain ⟨ba, bi, lr⟩ := env
  cases mo <;> cases la <;> cases ba <;> cases bi <;> cases lr <;> cases fw <;>
    simp_all [runStartup]

/-- The startup phase of run never performs an accept. -/
lemma acceptAttempt_not_in_runStartup (cfg : Config) (env : StartupEnv) :
    Event.acceptAttempt ∉ (runStartup cfg env).1 := by
  obtain ⟨mo, la, fw, nd⟩ := cfg
  obtain ⟨ba, bi, lr⟩ := env
  cases mo <;> cases la <;> cases ba <;> cases bi <;> cases lr <;> cases fw <;>
    simp [runStartup]

/-- C2: every fatal startup condition (bind failure, bind-address
resolution failure, TCP relay mode disabled, missing local bind address,
missing forward address) makes run report a panic or error outcome to its
caller instead of entering the loop, and no accept is ever attempted. -/
theorem startup_failure_prevents_accept_loop (cfg : Config) (env : StartupEnv)
    (inputs : List IterInput)
    (h : cfg.mode_enable_tcp = false ∨ cfg.local_addr = none ∨
         (∃ e, env.bindAddrResult = Except.error e) ∨
         (∃ e, env.bindResult = Except.error e) ∨ cfg.forward = none) :
    (run cfg env inputs).2 ≠ RunOutcome.enteredLoop ∧
    Event.acceptAttempt ∉ (run cfg env inputs).1 := by
  have h1 := runStartup_not_enteredLoop cfg env h
  have h2 := acceptAttempt_not_in_runStartup cfg env
  cases ho : (runStartup cfg env).2 with
  | panicked m =>
      constructor
      · simp [run, ho]
      · simp only [run, ho]
        exact h2
  | startupFailed e =>
      constructor
      · simp [run, ho]
      · simp only [run, ho]
        exact h2
  | enteredLoop => exact absurd ho h1

/-- The concrete startup environment in which every external call succeeds. -/
def envReady : StartupEnv :=
  { bindAddrResult := Except.ok "127.0.0.1:8388",
    bindResult := Except.ok (),
    localAddrResult := Except.ok "127.0.0.1:8388" }

/-- A concrete configuration whose TCP relay mode is disabled. -/
def cfgNoTcp : Config :=
  { mode_enable_tcp := false, local_addr := some "127.0.0.1:8388",
    forward := some "example.com:80", no_delay := false }

/-- Witness for C2 at a concrete configuration with TCP mode disabled. -/
theorem startup_failure_prevents_accept_loop_witness :
    (run cfgNoTcp envReady []).2 ≠ RunOutcome.enteredLoop ∧
    Event.acceptAttempt ∉ (run cfgNoTcp envReady []).1 :=
  startup_failure_prevents_accept_loop cfgNoTcp envReady [] (Or.inl rfl)

/-- C3: a per-accept failure is never fatal: its iteration logs the error,
sleeps exactly one second and continues; over any finite run of
consecutive accept failures the loop never returns from run and performs
exactly one one-second sleep per failure before the next accept attempt. -/
theorem accept_failures_backoff_never_return (cfg : Config)
    (errs : List IOError) :
    acceptLoopOutcome cfg (errs.map IterInput.acceptFailed) = none ∧
    acceptLoop cfg (errs.map IterInput.acceptFailed) =
      errs.flatMap (fun _ => [Event.acceptAttempt,
        Event.log .error "accept failed with error", Event.sleepSecs 1]) ∧
    (∀ e, runIteration cfg (IterInput.acceptFailed e) =
      { loopEvents := [Event.acceptAttempt,
          Event.log .error "accept failed with error", Event.sleepSecs 1],
        taskTrace := [], control := .continueLoop }) := by
  refine ⟨?_, ?_, fun e => rfl⟩
  · induction errs with
    | nil => rfl
    | cons e rest ih =>
        simpa [acceptLoopOutcome, runIteration] using ih
  · induction errs with
    | nil => rfl
    | cons e rest ih =>
        simpa [acceptLoop, runIteration] using ih

/-- C4: the loop behavior of an accepted-connection iteration (its own
events and its decision to continue) is identical for every per-connection
outcome, and the spawned task only logs an error outcome at debug level,
returning nothing. -/
theorem task_outcome_swallowed (cfg : Config) (p : SocketAddr)
    (env env2 : PerConnEnv) :
    (runIteration cfg (IterInput.accepted p env)).control =
      IterControl.continueLoop ∧
    (runIteration cfg (IterInput.accepted p env)).loopEvents =
      (runIteration cfg (IterInput.accepted p env2)).loopEvents ∧
    tunnelClientTask cfg env =
      (handle_tunnel_client cfg env.nodelayResult env.peerAddrResult
        env.connectResult env.first env.rl env.rr).1 ++
      (match (handle_tunnel_client cfg env.nodelayResult env.peerAddrResult
          env.connectResult env.first env.rl env.rr).2 with
       | .result (.error _) =>
           [Event.log .debug "TCP tunnel client exited with error"]
       | .result (.ok _) => []
       | .panicked _ => []) := by
  refine ⟨rfl, rfl, ?_⟩
  unfold tunnelClientTask
  cases h : (handle_tunnel_client cfg env.nodelayResult env.peerAddrResult
      env.connectResult env.first env.rl env.rr).2 with
  | panicked m => simp [h]
  | result r =>
      cases r with
      | ok u => simp [h]
      | error er => simp [h]

/-- C5: when connect_proxied fails, establish_client_tcp_tunnel returns
exactly that error at once: its trace is the connect attempt followed by
the drop of the client stream, no directional copy is started, and the
iteration that spawned the connection still continues the accept loop. -/
theorem connect_failure_aborts_connection (cfg : Config) (e : IOError)
    (first : First) (rl rr : CopyResult) (p : SocketAddr)
    (nres : Except IOError Unit) (pres : Except IOError SocketAddr) :
    establish_client_tcp_tunnel (Except.error e) first rl rr =
      ([Event.connectAttempt, Event.close .client], Except.error e) ∧
    Event.copyStarted ∉
      (establish_client_tcp_tunnel (Except.error e) first rl rr).1 ∧
    (runIteration cfg (IterInput.accepted p
      { nodelayResult := nres, peerAddrResult := pres,
        connectResult := Except.error e, first := first,
        rl := rl, rr := rr })).control = IterControl.continueLoop := by
  refine ⟨rfl, ?_, rfl⟩
  rw [show (establish_client_tcp_tunnel (Except.error e) first rl rr).1 =
    [Event.connectAttempt, Event.close .client] from rfl]
  decide

/-- C6: the level of the log event emitted for the first finishing
direction equals the spec classification of that direction's result
(clean close at trace, TimedOut at trace, any other error at debug),
whichever direction finished first, and that event is part of the relay
trace. -/
theorem termination_classification (first : First) (rl rr : CopyResult)
    (ps : ProxyStream) :
    eventLevel (terminationLogEvent first rl rr) =
      some (expectedTerminationLevel (selectedResult first rl rr)) ∧
    terminationLogEvent first rl rr ∈
      (establish_client_tcp_tunnel (Except.ok ps) first rl rr).1 := by
  constructor
  · cases first
    · cases rl with
      | ok n => rfl
      | error err =>
          by_cases h : err.kind = ErrorKind.TimedOut <;>
            simp [terminationLogEvent, eventLevel, expectedTerminationLevel,
              selectedResult, h]
    · cases rr with
      | ok n => rfl
      | error err =>
          by_cases h : err.kind = ErrorKind.TimedOut <;>
            simp [terminationLogEvent, eventLevel, expectedTerminationLevel,
              selectedResult, h]
  · simp [establish_client_tcp_tunnel]

/-- C7: the relay result and full trace are independent of the direction
that did not finish first (the loser is dropped, never drained), and on
return both the upstream stream and the client stream are closed, the
trace ending with their drops. -/
theorem race_teardown_independent_of_loser (ps : ProxyStream)
    (rl rl2 rr rr2 : CopyResult) :
    establish_client_tcp_tunnel (Except.ok ps) First.left rl rr =
      establish_client_tcp_tunnel (Except.ok ps) First.left rl rr2 ∧
    establish_client_tcp_tunnel (Except.ok ps) First.right rl rr =
      establish_client_tcp_tunnel (Except.ok ps) First.right rl2 rr ∧
    (∀ (f : First) (a b : CopyResult),
      (establish_client_tcp_tunnel (Except.ok ps) f a b).1 =
        [Event.connectAttempt, Event.copyStarted,
         Event.log .debug "TUNNEL relay established",
         terminationLogEvent f a b,
         Event.log .debug "TUNNEL relay closed"] ++
        [Event.close .upstream, Event.close .client]) := by
  exact ⟨rfl, rfl, fun f a b => rfl⟩

/-- C8: set_nodelay is attempted exactly when the no_delay flag is set,
and a failure of the call changes nothing downstream: compared with a
successful call the trace differs only in the tuning-block events and the
outcome of the connection handler is the same. -/
theorem nodelay_best_effort (cfg : Config) (e : IOError)
    (pres : Except IOError SocketAddr) (cres : Except IOError ProxyStream)
    (first : First) (rl rr : CopyResult) :
    (∀ nres, Event.setNodelayAttempt ∈
        (handle_tunnel_client cfg nres pres cres first rl rr).1 ↔
      cfg.no_delay = true) ∧
    (handle_tunnel_client cfg (Except.error e) pres cres first rl rr).2 =
      (handle_tunnel_client cfg (Except.ok ()) pres cres first rl rr).2 ∧
    (∃ t, (handle_tunnel_client cfg (Except.error e) pres cres first rl rr).1 =
        tuningEvents cfg.no_delay (Except.error e) ++ t ∧
      (handle_tunnel_client cfg (Except.ok ()) pres cres first rl rr).1 =
        tuningEvents cfg.no_delay (Except.ok ()) ++ t) := by
  obtain ⟨lvl, msg, hlog⟩ := terminationLogEvent_isLog first rl rr
  refine ⟨?_, ?_, ?_⟩
  · intro nres
    cases pres with
    | error e2 =>
        cases hnd : cfg.no_delay <;> cases nres <;>
          simp [handle_tunnel_client, tuningEvents, hnd]
    | ok a =>
        cases hf : cfg.forward with
        | none =>
            cases hnd : cfg.no_delay <;> cases nres <;>
              simp [handle_tunnel_client, tuningEvents, hnd, hf]
        | some fwd =>
            cases cres <;>
              cases hnd : cfg.no_delay <;> cases nres <;>
                simp [handle_tunnel_client, tuningEvents, hnd, hf,
                  establish_client_tcp_tunnel, hlog]
  · cases pres with
    | error e2 => rfl
    | ok a =>
        cases hf : cfg.forward with
        | none => simp [handle_tunnel_client, hf]
        | some fwd => simp [handle_tunnel_client, hf]
  · cases pres with
    | error e2 => exact ⟨[Event.close .client], rfl, rfl⟩
    | ok a =>
        cases hf : cfg.forward with
        | none =>
            refine ⟨[], ?_, ?_⟩ <;> simp [handle_tunnel_client, hf]
        | some fwd =>
            refine ⟨(establish_client_tcp_tunnel cres first rl rr).1, ?_, ?_⟩ <;>
              simp [handle_tunnel_client, hf]

/-- C9: when peer_addr fails, the connection handler stops with exactly
that error after the tuning block: the client stream is dropped, the
upstream connect is never attempted and no copy is started; the spawned
task swallows the error, merely appending a debug log to the trace. -/
theorem peer_addr_failure_aborts (cfg : Config) (nres : Except IOError Unit)
    (e : IOError) (cres : Except IOError ProxyStream) (first : First)
    (rl rr : CopyResult) :
    handle_tunnel_client cfg nres (Except.error e) cres first rl rr =
      (tuningEvents cfg.no_delay nres ++ [Event.close .client],
       HandleOutcome.result (Except.error e)) ∧
    Event.connectAttempt ∉
      (handle_tunnel_client cfg nres (Except.error e) cres first rl rr).1 ∧
    Event.copyStarted ∉
      (handle_tunnel_client cfg nres (Except.error e) cres first rl rr).1 ∧
    tunnelClientTask cfg
      { nodelayResult := nres, peerAddrResult := Except.error e,
        connectResult := cres, first := first, rl := rl, rr := rr } =
      tuningEvents cfg.no_delay nres ++ [Event.close .client] ++
        [Event.log .debug "TCP tunnel client exited with error"] := by
  refine ⟨rfl, ?_, ?_, rfl⟩ <;>
    cases hnd : cfg.no_delay <;> cases nres <;>
      simp [handle_tunnel_client, tuningEvents, hnd]

/-- The forward address never being absent is derivable from startup: if
the startup phase of run entered the accept loop, the configuration holds
a forward address. -/
lemma forward_isSome_of_enteredLoop (cfg : Config) (env : StartupEnv)
    (h : (runStartup cfg env).2 = RunOutcome.enteredLoop) :
    cfg.forward.isSome := by
  obtain ⟨mo, la, fw, nd⟩ := cfg
  obtain ⟨ba, bi, lr⟩ := env
  cases mo <;> cases la <;> cases ba <;> cases bi <;> cases lr <;> cases fw <;>
    simp_all [runStartup]

/-- C10: whenever run reached its accept loop, the unwrap of the forward
address inside the connection handler cannot panic: for every connection
the handler's outcome is never a panic. -/
theorem forward_unwrap_never_panics (cfg : Config) (env : StartupEnv)
    (h : (runStartup cfg env).2 = RunOutcome.enteredLoop)
    (nres : Except IOError Unit) (pres : Except IOError SocketAddr)
    (cres : Except IOError ProxyStream) (first : First) (rl rr : CopyResult)
    (m : String) :
    (handle_tunnel_client cfg nres pres cres first rl rr).2 ≠
      HandleOutcome.panicked m := by
  have hfwd := forward_isSome_of_enteredLoop cfg env h
  obtain ⟨fwd, hf⟩ := Option.isSome_iff_exists.mp hfwd
  cases pres with
  | error e2 => simp [handle_tunnel_client]
  | ok a => simp [handle_tunnel_client, hf]

/-- A concrete configuration in which startup succeeds and the loop is
entered. -/
def cfgReady : Config :=
  { mode_enable_tcp := true, local_addr := some "127.0.0.1:8388",
    forward := some "example.com:80", no_delay := true }

/-- Witness for C10 at a concrete configuration that entered the loop. -/
theorem forward_unwrap_never_panics_witness :
    (handle_tunnel_client cfgReady (Except.ok ()) (Except.ok "10.0.0.1:4000")
      (Except.ok ()) First.left (Except.ok 0) (Except.ok 0)).2 ≠
      HandleOutcome.panicked "called unwrap on a None value" :=
  forward_unwrap_never_panics cfgReady envReady rfl (Except.ok ())
    (Except.ok "10.0.0.1:4000") (Except.ok ()) First.left (Except.ok 0)
    (Except.ok 0) "called unwrap on a None value"

end TunnelLocal
